import Mathlib

/-!
Shallow embedding of the OBI stability-metric engine
(`src/OBIAI/STABILITY_METRIC/obi_stability_implementation.py`).

Floats are modelled as real numbers; wall-clock time is passed explicitly
(`current_time`), with `dt = current_time - last_update` as in the source.
Python dict records with optional fields are modelled as structures of
`Option` fields read through defaults, matching `dict.get(key, default)`.
Zone callbacks are modelled as functions that either succeed (`none`) or
raise an exception message (`some e`); the only engine-visible effect of a
callback is that possible exception, which the source catches and logs.
-/

namespace OBI

/-- The eleven stability zones of `StabilityZone` in the source. -/
inductive StabilityZone where
  | STABLE
  | WARNING_LOW
  | WARNING_MED
  | WARNING_HIGH
  | DANGER_LOW
  | DANGER_MED
  | DANGER_HIGH
  | CRITICAL_LOW
  | CRITICAL_HIGH
  | PANIC
  | UNSTABLE_INVERSE
  deriving DecidableEq, Repr

/-- Snapshot produced by each tick (`StabilityMetrics` dataclass). -/
structure StabilityMetrics where
  current_stability : ℝ
  derivative : ℝ
  error_signal : ℝ
  exception_signal : ℝ
  panic_signal : ℝ
  harm_potential : ℝ
  compliance_percentage : ℝ
  zone : StabilityZone
  timestamp : ℝ

instance : Inhabited StabilityMetrics :=
  ⟨{ current_stability := 0, derivative := 0, error_signal := 0, exception_signal := 0,
     panic_signal := 0, harm_potential := 0, compliance_percentage := 100,
     zone := .STABLE, timestamp := 0 }⟩

/-- An exception record `{severity, decay, count}`; missing keys are `none`
and are read through the `dict.get` defaults of the source. -/
structure ExceptionRecord where
  severity : Option ℝ
  decay : Option ℝ
  count : Option ℝ

/-- A panic event `{severity}`; a missing key defaults to `1.0`. -/
structure PanicEvent where
  severity : Option ℝ

/-- A zone callback: `none` models normal return, `some e` models the
callback raising an exception with message `e`. -/
def ZoneCallback : Type := StabilityMetrics → Option String

/-- The mutable engine state (`OBIStabilityMetric` instance fields).
The configuration fields (`lambda_weight` … `history_size`) are set in
`__init__` and never changed afterwards, in particular not by `reset`. -/
structure EngineState where
  lambda_weight : ℝ
  mu_weight : ℝ
  nu_weight : ℝ
  tau_panic : ℝ
  history_size : ℕ
  stability : ℝ
  error_accumulator : ℝ
  exception_accumulator : ℝ
  panic_level : ℝ
  history : List StabilityMetrics
  zone_time_tracker : StabilityZone → ℝ
  total_time : ℝ
  last_update : ℝ
  zone_callbacks : StabilityZone → List ZoneCallback

/-- Constructor state: all scalars zero, empty history, zeroed dwell tracker,
empty callback registry; `now` stands for the `time.time()` call. -/
def initState (lam mu nu tau : ℝ) (hsize : ℕ) (now : ℝ) : EngineState where
  lambda_weight := lam
  mu_weight := mu
  nu_weight := nu
  tau_panic := tau
  history_size := hsize
  stability := 0
  error_accumulator := 0
  exception_accumulator := 0
  panic_level := 0
  history := []
  zone_time_tracker := fun _ => 0
  total_time := 0
  last_update := now
  zone_callbacks := fun _ => []

/-- Method reset: zeroes the scalars, clears history and the dwell tracker, and
refreshes `last_update`; configuration and callbacks are untouched. -/
def reset (s : EngineState) (now : ℝ) : EngineState :=
  { s with
    stability := 0
    error_accumulator := 0
    exception_accumulator := 0
    panic_level := 0
    history := []
    zone_time_tracker := fun _ => 0
    total_time := 0
    last_update := now }

/-- Error mapper: Σᵢ exp(-0.1·i) · ln(1 + eᵢ). -/
noncomputable def map_error_to_signal (errors : List ℝ) : ℝ :=
  (errors.enum.map (fun p => Real.exp (-(0.1) * (p.1 : ℝ)) * Real.log (1 + p.2))).sum

/-- Exception mapper: Σⱼ αⱼ·(1 - exp(-βⱼ·cⱼ)) with defaults
severity 1.0, decay 0.5, count 1. -/
noncomputable def map_exception_to_signal (exceptions : List ExceptionRecord) : ℝ :=
  (exceptions.map (fun exc =>
    (exc.severity.getD 1) * (1 - Real.exp (-(exc.decay.getD 0.5) * (exc.count.getD 1))))).sum

/-- Maximum severity over a batch, defaulting each missing severity to 1.0;
the `[]` case is unreachable in the source (guarded by the empty check). -/
def maxSeverity : List PanicEvent → ℝ
  | [] => 0
  | [e] => e.severity.getD 1
  | e :: rest => max (e.severity.getD 1) (maxSeverity rest)

/-- Panic signal: natural decay `panic_level · exp(-1/τ)` when the
batch is empty, otherwise a replacement `3 · exp(max_severity/τ)`. -/
noncomputable def compute_panic_signal (s : EngineState) (panic_events : List PanicEvent) : ℝ :=
  if panic_events.isEmpty then
    s.panic_level * Real.exp (-1 / s.tau_panic)
  else
    3 * Real.exp (maxSeverity panic_events / s.tau_panic)

/-- Euclidean norm of the action vector (`np.linalg.norm`). -/
noncomputable def vector_norm (v : List ℝ) : ℝ :=
  Real.sqrt ((v.map (fun x => x ^ 2)).sum)

/-- Harm potential: sigmoid of `k₁·|s| + k₂·‖a‖`, k₁=0.5, k₂=0.3. -/
noncomputable def compute_harm_potential (stability : ℝ) (action_vector : Option (List ℝ)) : ℝ :=
  let base_harm := 0.5 * |stability|
  let action_harm :=
    match action_vector with
    | none => 0
    | some v => 0.3 * vector_norm v
  1 / (1 + Real.exp (-(base_harm + action_harm)))

/-- Zone classifier: the elif chain of the source, verbatim. -/
noncomputable def get_zone (stability : ℝ) : StabilityZone :=
  if stability = 0 then .STABLE
  else if 0 < stability ∧ stability ≤ 1 then .WARNING_LOW
  else if 1 < stability ∧ stability ≤ 2 then .WARNING_MED
  else if 2 < stability ∧ stability ≤ 3 then .WARNING_HIGH
  else if 3 < stability ∧ stability ≤ 4.5 then .DANGER_LOW
  else if 4.5 < stability ∧ stability ≤ 6 then .DANGER_MED
  else if 6 < stability ∧ stability ≤ 7.5 then .DANGER_HIGH
  else if 7.5 < stability ∧ stability ≤ 9 then .CRITICAL_LOW
  else if 9 < stability ∧ stability ≤ 10.5 then .CRITICAL_HIGH
  else if stability > 10.5 then .PANIC
  else .UNSTABLE_INVERSE

/-- Clamp of `x` into `[lo, hi]`, as `np.clip(x, lo, hi)`. -/
noncomputable def clip (x lo hi : ℝ) : ℝ := min (max x lo) hi

/-- Bounded append of `deque(maxlen=cap)`: append on the right, evicting from the left
when the capacity is exceeded. -/
def push_history (cap : ℕ) (h : List StabilityMetrics) (m : StabilityMetrics) :
    List StabilityMetrics :=
  let h2 := h ++ [m]
  if h2.length ≤ cap then h2 else h2.drop (h2.length - cap)

/-- Callback dispatch: run every callback in order; a raised
exception is caught and turned into a log line, and the loop continues. -/
def trigger_zone_callbacks : List ZoneCallback → StabilityMetrics → List String
  | [], _ => []
  | cb :: rest, m =>
    match cb m with
    | none => trigger_zone_callbacks rest m
    | some e => ("Zone callback error: " ++ e) :: trigger_zone_callbacks rest m

/-- The kill-switch condition of the safety check: the zone recorded in the
snapshot is PANIC, or the live stability is above 12 or below -1. -/
def killSwitchCond (stab : ℝ) (m : StabilityMetrics) : Prop :=
  m.zone = .PANIC ∨ stab > 12 ∨ stab < -1

noncomputable instance (stab : ℝ) (m : StabilityMetrics) : Decidable (killSwitchCond stab m) := by
  unfold killSwitchCond; infer_instance

/-- The state-mutating body of `update` up to and including the history
append: signal mapping, accumulator decay, integration, clamping, zone
classification, dwell accounting, compliance, harm, snapshot creation. -/
noncomputable def update_core (s : EngineState) (errors : List ℝ)
    (exceptions : List ExceptionRecord) (panic_events : List PanicEvent)
    (action_vector : Option (List ℝ)) (current_time : ℝ) :
    EngineState × StabilityMetrics :=
  let dt := current_time - s.last_update
  let error_signal := map_error_to_signal errors
  let exception_signal := map_exception_to_signal exceptions
  let panic_signal := compute_panic_signal s panic_events
  let err_acc := 0.95 * s.error_accumulator + error_signal
  let exc_acc := 0.9 * s.exception_accumulator + exception_signal
  let dS_dt := s.lambda_weight * err_acc + s.mu_weight * panic_signal + s.nu_weight * exc_acc
  let stab := clip (s.stability + dS_dt * dt) (-12) 12
  let current_zone := get_zone stab
  let tracker := fun z =>
    if z = current_zone then s.zone_time_tracker z + dt else s.zone_time_tracker z
  let total := s.total_time + dt
  let safe_time := tracker .STABLE + tracker .WARNING_LOW + tracker .WARNING_MED +
    tracker .WARNING_HIGH
  let compliance := if total > 0 then safe_time / total * 100 else 100
  let harm := compute_harm_potential stab action_vector
  let metrics : StabilityMetrics :=
    { current_stability := stab
      derivative := dS_dt
      error_signal := err_acc
      exception_signal := exc_acc
      panic_signal := panic_signal
      harm_potential := harm
      compliance_percentage := compliance
      zone := current_zone
      timestamp := current_time }
  let s1 : EngineState :=
    { s with
      stability := stab
      error_accumulator := err_acc
      exception_accumulator := exc_acc
      panic_level := panic_signal
      zone_time_tracker := tracker
      total_time := total
      last_update := current_time
      history := push_history s.history_size s.history metrics }
  (s1, metrics)

/-- One tick of the engine. Returns the post-tick engine state (after the
safety check, which may reset it), the snapshot handed back to the caller,
and the log lines produced by failing zone callbacks. -/
noncomputable def update (s : EngineState) (errors : List ℝ)
    (exceptions : List ExceptionRecord) (panic_events : List PanicEvent)
    (action_vector : Option (List ℝ)) (current_time : ℝ) :
    EngineState × StabilityMetrics × List String :=
  let r := update_core s errors exceptions panic_events action_vector current_time
  let logs := trigger_zone_callbacks (s.zone_callbacks r.2.zone) r.2
  let s2 := if killSwitchCond r.1.stability r.2 then reset r.1 current_time else r.1
  (s2, r.2, logs)

/-- Prediction helper: linear extrapolation from the
derivative of the last snapshot; plain current stability when fewer than two
snapshots exist. -/
noncomputable def predict_future_stability (s : EngineState) (horizon : ℝ) : ℝ :=
  match s.history.getLast? with
  | none => s.stability
  | some m =>
    if s.history.length < 2 then s.stability
    else s.stability + m.derivative * horizon

/-- The diagnostic record returned by `get_trace`. -/
structure TraceRecord where
  timestamp : ℝ
  stability : ℝ
  derivative : ℝ
  error_health : ℝ
  exception_health : ℝ
  panic_health : ℝ
  prediction : ℝ

/-- Trace query: a diagnostic when the latest snapshot exists and is in the
STABLE zone, otherwise the empty result `{}` (modelled as `none`). -/
noncomputable def get_trace (s : EngineState) : Option TraceRecord :=
  match s.history.getLast? with
  | none => none
  | some m =>
    if m.zone = .STABLE then
      some { timestamp := m.timestamp
             stability := m.current_stability
             derivative := m.derivative
             error_health := m.error_signal
             exception_health := m.exception_signal
             panic_health := m.panic_signal
             prediction := predict_future_stability s 1 }
    else none

/-- Sum of the dwell times over all eleven zones. -/
def dwellSum (tr : StabilityZone → ℝ) : ℝ :=
  tr .STABLE + tr .WARNING_LOW + tr .WARNING_MED + tr .WARNING_HIGH +
  tr .DANGER_LOW + tr .DANGER_MED + tr .DANGER_HIGH +
  tr .CRITICAL_LOW + tr .CRITICAL_HIGH + tr .PANIC + tr .UNSTABLE_INVERSE

/-- States reachable from a fresh engine by ticks and explicit resets. -/
inductive Reachable : EngineState → Prop where
  | init (lam mu nu tau : ℝ) (hsize : ℕ) (now : ℝ) :
      Reachable (initState lam mu nu tau hsize now)
  | step (s : EngineState) (errors : List ℝ) (exceptions : List ExceptionRecord)
      (panic_events : List PanicEvent) (action_vector : Option (List ℝ))
      (current_time : ℝ) (h : Reachable s) :
      Reachable (update s errors exceptions panic_events action_vector current_time).1
  | reset_step (s : EngineState) (now : ℝ) (h : Reachable s) :
      Reachable (reset s now)

/-! Basic unfolding lemmas -/

theorem map_error_to_signal_nil : map_error_to_signal [] = 0 := by
  simp [map_error_to_signal]

theorem map_exception_to_signal_nil : map_exception_to_signal [] = 0 := by
  simp [map_exception_to_signal]

theorem compute_panic_signal_nil (s : EngineState) :
    compute_panic_signal s [] = s.panic_level * Real.exp (-1 / s.tau_panic) := by
  simp [compute_panic_signal]

theorem compute_panic_signal_cons (s : EngineState) (e : PanicEvent) (es : List PanicEvent) :
    compute_panic_signal s (e :: es) = 3 * Real.exp (maxSeverity (e :: es) / s.tau_panic) := by
  simp [compute_panic_signal]

theorem clip_le_hi (x lo hi : ℝ) : clip x lo hi ≤ hi := min_le_right _ _

theorem lo_le_clip (x lo hi : ℝ) (h : lo ≤ hi) : lo ≤ clip x lo hi :=
  le_min (le_max_right _ _) h

theorem clip_eq_self (x lo hi : ℝ) (h1 : lo ≤ x) (h2 : x ≤ hi) : clip x lo hi = x := by
  unfold clip
  rw [max_eq_left h1, min_eq_left h2]

/-! Projection lemmas for one tick

`update_core` is a nest of `let`s; each of these lemmas reads off one
component of the resulting state or snapshot, and each is definitional. -/

theorem uc_metrics (s : EngineState) (errors : List ℝ) (exceptions : List ExceptionRecord)
    (panic_events : List PanicEvent) (av : Option (List ℝ)) (t : ℝ) :
    (update_core s errors exceptions panic_events av t).2.error_signal =
      0.95 * s.error_accumulator + map_error_to_signal errors ∧
    (update_core s errors exceptions panic_events av t).2.exception_signal =
      0.9 * s.exception_accumulator + map_exception_to_signal exceptions ∧
    (update_core s errors exceptions panic_events av t).2.panic_signal =
      compute_panic_signal s panic_events ∧
    (update_core s errors exceptions panic_events av t).2.derivative =
      s.lambda_weight * (update_core s errors exceptions panic_events av t).2.error_signal +
      s.mu_weight * (update_core s errors exceptions panic_events av t).2.panic_signal +
      s.nu_weight * (update_core s errors exceptions panic_events av t).2.exception_signal ∧
    (update_core s errors exceptions panic_events av t).2.current_stability =
      clip (s.stability +
        (update_core s errors exceptions panic_events av t).2.derivative *
          (t - s.last_update)) (-12) 12 ∧
    (update_core s errors exceptions panic_events av t).2.zone =
      get_zone (update_core s errors exceptions panic_events av t).2.current_stability ∧
    (update_core s errors exceptions panic_events av t).2.timestamp = t :=
  ⟨rfl, rfl, rfl, rfl, rfl, rfl, rfl⟩

theorem uc_state (s : EngineState) (errors : List ℝ) (exceptions : List ExceptionRecord)
    (panic_events : List PanicEvent) (av : Option (List ℝ)) (t : ℝ) :
    (update_core s errors exceptions panic_events av t).1.stability =
      (update_core s errors exceptions panic_events av t).2.current_stability ∧
    (update_core s errors exceptions panic_events av t).1.error_accumulator =
      (update_core s errors exceptions panic_events av t).2.error_signal ∧
    (update_core s errors exceptions panic_events av t).1.exception_accumulator =
      (update_core s errors exceptions panic_events av t).2.exception_signal ∧
    (update_core s errors exceptions panic_events av t).1.panic_level =
      (update_core s errors exceptions panic_events av t).2.panic_signal ∧
    (update_core s errors exceptions panic_events av t).1.zone_time_tracker =
      (fun z => if z = (update_core s errors exceptions panic_events av t).2.zone
        then s.zone_time_tracker z + (t - s.last_update) else s.zone_time_tracker z) ∧
    (update_core s errors exceptions panic_events av t).1.total_time =
      s.total_time + (t - s.last_update) ∧
    (update_core s errors exceptions panic_events av t).1.history =
      push_history s.history_size s.history (update_core s errors exceptions panic_events av t).2 ∧
    (update_core s errors exceptions panic_events av t).1.history_size = s.history_size ∧
    (update_core s errors exceptions panic_events av t).1.zone_callbacks = s.zone_callbacks :=
  ⟨rfl, rfl, rfl, rfl, rfl, rfl, rfl, rfl, rfl⟩

theorem update_fst (s : EngineState) (errors : List ℝ) (exceptions : List ExceptionRecord)
    (panic_events : List PanicEvent) (av : Option (List ℝ)) (t : ℝ) :
    (update s errors exceptions panic_events av t).1 =
      if killSwitchCond (update_core s errors exceptions panic_events av t).1.stability
          (update_core s errors exceptions panic_events av t).2 then
        reset (update_core s errors exceptions panic_events av t).1 t
      else (update_core s errors exceptions panic_events av t).1 := rfl

theorem update_snapshot (s : EngineState) (errors : List ℝ) (exceptions : List ExceptionRecord)
    (panic_events : List PanicEvent) (av : Option (List ℝ)) (t : ℝ) :
    (update s errors exceptions panic_events av t).2.1 =
      (update_core s errors exceptions panic_events av t).2 := rfl

theorem update_logs (s : EngineState) (errors : List ℝ) (exceptions : List ExceptionRecord)
    (panic_events : List PanicEvent) (av : Option (List ℝ)) (t : ℝ) :
    (update s errors exceptions panic_events av t).2.2 =
      trigger_zone_callbacks
        (s.zone_callbacks (update_core s errors exceptions panic_events av t).2.zone)
        (update_core s errors exceptions panic_events av t).2 := rfl

/-! C3: the zone classifier -/

/-- Case table for the zone classifier, written from the words of the spec
for comparison with the `get_zone` of the source. -/
def zoneSpec : StabilityZone → ℝ → Prop
  | .STABLE, s => s = 0
  | .WARNING_LOW, s => 0 < s ∧ s ≤ 1
  | .WARNING_MED, s => 1 < s ∧ s ≤ 2
  | .WARNING_HIGH, s => 2 < s ∧ s ≤ 3
  | .DANGER_LOW, s => 3 < s ∧ s ≤ 4.5
  | .DANGER_MED, s => 4.5 < s ∧ s ≤ 6
  | .DANGER_HIGH, s => 6 < s ∧ s ≤ 7.5
  | .CRITICAL_LOW, s => 7.5 < s ∧ s ≤ 9
  | .CRITICAL_HIGH, s => 9 < s ∧ s ≤ 10.5
  | .PANIC, s => 10.5 < s
  | .UNSTABLE_INVERSE, s => s < 0

theorem zoneSpec_get_zone (s : ℝ) : zoneSpec (get_zone s) s := by
  unfold get_zone
  split_ifs with h0 h1 h2 h3 h4 h5 h6 h7 h8 h9
  · simpa [zoneSpec] using h0
  · simpa [zoneSpec] using h1
  · simpa [zoneSpec] using h2
  · simpa [zoneSpec] using h3
  · simpa [zoneSpec] using h4
  · simpa [zoneSpec] using h5
  · simpa [zoneSpec] using h6
  · simpa [zoneSpec] using h7
  · simpa [zoneSpec] using h8
  · simpa [zoneSpec] using h9
  · simp only [zoneSpec]
    push_neg at h1 h2 h3 h4 h5 h6 h7 h8 h9
    by_contra hc
    push_neg at hc
    have hpos : 0 < s := lt_of_le_of_ne hc (Ne.symm h0)
    have := h8 (h7 (h6 (h5 (h4 (h3 (h2 (h1 hpos)))))))
    linarith

theorem get_zone_eq_of_zoneSpec (s : ℝ) (z : StabilityZone) (hz : zoneSpec z s) :
    get_zone s = z := by
  cases z <;> simp only [zoneSpec] at hz <;> unfold get_zone
  case STABLE => rw [if_pos hz]
  case WARNING_LOW =>
    obtain ⟨ha, hb⟩ := hz
    rw [if_neg (by rintro rfl; linarith), if_pos ⟨ha, hb⟩]
  case WARNING_MED =>
    obtain ⟨ha, hb⟩ := hz
    rw [if_neg (by rintro rfl; linarith), if_neg (by rintro ⟨-, h⟩; linarith),
      if_pos ⟨ha, hb⟩]
  case WARNING_HIGH =>
    obtain ⟨ha, hb⟩ := hz
    rw [if_neg (by rintro rfl; linarith), if_neg (by rintro ⟨-, h⟩; linarith),
      if_neg (by rintro ⟨-, h⟩; linarith), if_pos ⟨ha, hb⟩]
  case DANGER_LOW =>
    obtain ⟨ha, hb⟩ := hz
    rw [if_neg (by rintro rfl; linarith), if_neg (by rintro ⟨-, h⟩; linarith),
      if_neg (by rintro ⟨-, h⟩; linarith), if_neg (by rintro ⟨-, h⟩; linarith),
      if_pos ⟨ha, hb⟩]
  case DANGER_MED =>
    obtain ⟨ha, hb⟩ := hz
    rw [if_neg (by rintro rfl; linarith), if_neg (by rintro ⟨-, h⟩; linarith),
      if_neg (by rintro ⟨-, h⟩; linarith), if_neg (by rintro ⟨-, h⟩; linarith),
      if_neg (by rintro ⟨-, h⟩; linarith), if_pos ⟨ha, hb⟩]
  case DANGER_HIGH =>
    obtain ⟨ha, hb⟩ := hz
    rw [if_neg (by rintro rfl; linarith), if_neg (by rintro ⟨-, h⟩; linarith),
      if_neg (by rintro ⟨-, h⟩; linarith), if_neg (by rintro ⟨-, h⟩; linarith),
      if_neg (by rintro ⟨-, h⟩; linarith), if_neg (by rintro ⟨-, h⟩; linarith),
      if_pos ⟨ha, hb⟩]
  case CRITICAL_LOW =>
    obtain ⟨ha, hb⟩ := hz
    rw [if_neg (by rintro rfl; linarith), if_neg (by rintro ⟨-, h⟩; linarith),
      if_neg (by rintro ⟨-, h⟩; linarith), if_neg (by rintro ⟨-, h⟩; linarith),
      if_neg (by rintro ⟨-, h⟩; linarith), if_neg (by rintro ⟨-, h⟩; linarith),
      if_neg (by rintro ⟨-, h⟩; linarith), if_pos ⟨ha, hb⟩]
  case CRITICAL_HIGH =>
    obtain ⟨ha, hb⟩ := hz
    rw [if_neg (by rintro rfl; linarith), if_neg (by rintro ⟨-, h⟩; linarith),
      if_neg (by rintro ⟨-, h⟩; linarith), if_neg (by rintro ⟨-, h⟩; linarith),
      if_neg (by rintro ⟨-, h⟩; linarith), if_neg (by rintro ⟨-, h⟩; linarith),
      if_neg (by rintro ⟨-, h⟩; linarith), if_neg (by rintro ⟨-, h⟩; linarith),
      if_pos ⟨ha, hb⟩]
  case PANIC =>
    rw [if_neg (by rintro rfl; linarith), if_neg (by rintro ⟨-, h⟩; linarith),
      if_neg (by rintro ⟨-, h⟩; linarith), if_neg (by rintro ⟨-, h⟩; linarith),
      if_neg (by rintro ⟨-, h⟩; linarith), if_neg (by rintro ⟨-, h⟩; linarith),
      if_neg (by rintro ⟨-, h⟩; linarith), if_neg (by rintro ⟨-, h⟩; linarith),
      if_neg (by rintro ⟨-, h⟩; linarith), if_pos hz]
  case UNSTABLE_INVERSE =>
    rw [if_neg (by rintro rfl; linarith), if_neg (by rintro ⟨h, -⟩; linarith),
      if_neg (by rintro ⟨h, -⟩; linarith), if_neg (by rintro ⟨h, -⟩; linarith),
      if_neg (by rintro ⟨h, -⟩; linarith), if_neg (by rintro ⟨h, -⟩; linarith),
      if_neg (by rintro ⟨h, -⟩; linarith), if_neg (by rintro ⟨h, -⟩; linarith),
      if_neg (by rintro ⟨h, -⟩; linarith), if_neg (by intro h; linarith)]

/-- C3: the zone classifier is total with exhaustive, non-overlapping cases:
for every real `s` and every zone `z`, `get_zone s = z` holds exactly when
`s` falls in the specified case for `z`, so exactly one case applies to each
`s` (namely the one `get_zone` selects). -/
theorem C3_zone_classifier_total_partition (s : ℝ) (z : StabilityZone) :
    get_zone s = z ↔ zoneSpec z s :=
  ⟨fun h => h ▸ zoneSpec_get_zone s, get_zone_eq_of_zoneSpec s z⟩

theorem C3_zone_classifier_total_partition_witness :
    get_zone 3 = StabilityZone.WARNING_HIGH ∧ zoneSpec StabilityZone.WARNING_HIGH 3 :=
  ⟨(C3_zone_classifier_total_partition 3 .WARNING_HIGH).mpr (by norm_num [zoneSpec]),
   by norm_num [zoneSpec]⟩

/-! C4: asymmetry of the panic signal -/

/-- C4: `compute_panic_signal` decays the previous panic level by
`exp(-1/τ)` on an empty batch and replaces it with `3·exp(max_severity/τ)`
on a non-empty batch; with `τ = 2` a severity-5 event yields `3·exp(5/2)`
and each empty-batch call multiplies the level by `exp(-1/2)`. -/
theorem C4_panic_signal_asymmetry (s : EngineState) (events : List PanicEvent) :
    (events = [] → compute_panic_signal s events = s.panic_level * Real.exp (-1 / s.tau_panic)) ∧
    (events ≠ [] → compute_panic_signal s events = 3 * Real.exp (maxSeverity events / s.tau_panic)) ∧
    (s.tau_panic = 2 →
      compute_panic_signal s [⟨some 5⟩] = 3 * Real.exp (5 / 2) ∧
      compute_panic_signal s [] = s.panic_level * Real.exp (-(1 / 2))) := by
  refine ⟨?_, ?_, ?_⟩
  · rintro rfl
    exact compute_panic_signal_nil s
  · intro h
    match events, h with
    | e :: es, _ => exact compute_panic_signal_cons s e es
  · intro htau
    constructor
    · rw [compute_panic_signal_cons, htau]
      norm_num [maxSeverity]
    · rw [compute_panic_signal_nil, htau]
      norm_num

theorem C4_panic_signal_asymmetry_witness :
    ([⟨some 5⟩] : List PanicEvent) ≠ [] ∧
    (initState 0.3 0.5 0.2 2 1000 0).tau_panic = 2 ∧
    compute_panic_signal (initState 0.3 0.5 0.2 2 1000 0) [⟨some 5⟩] = 3 * Real.exp (5 / 2) ∧
    compute_panic_signal (initState 0.3 0.5 0.2 2 1000 0) [] =
      (initState 0.3 0.5 0.2 2 1000 0).panic_level * Real.exp (-(1 / 2)) :=
  ⟨by simp, rfl,
   ((C4_panic_signal_asymmetry (initState 0.3 0.5 0.2 2 1000 0) [⟨some 5⟩]).2.2 rfl).1,
   ((C4_panic_signal_asymmetry (initState 0.3 0.5 0.2 2 1000 0) []).2.2 rfl).2⟩

/-! C2: the tick arithmetic -/

/-- C2: one tick computes `ea' = 0.95·ea + E`, `xa' = 0.9·xa + X`,
`p' = P` (replacement), `derivative = 0.3·ea' + 0.5·p' + 0.2·xa'` under the
default weights, and records `stability' = clip(stability + derivative·dt, -12, 12)`,
which therefore lies in `[-12, 12]`. -/
theorem C2_update_tick_arithmetic (s : EngineState) (errors : List ℝ)
    (exceptions : List ExceptionRecord) (panic_events : List PanicEvent)
    (av : Option (List ℝ)) (t : ℝ)
    (hlam : s.lambda_weight = 0.3) (hmu : s.mu_weight = 0.5) (hnu : s.nu_weight = 0.2) :
    (update s errors exceptions panic_events av t).2.1.error_signal =
      0.95 * s.error_accumulator + map_error_to_signal errors ∧
    (update s errors exceptions panic_events av t).2.1.exception_signal =
      0.9 * s.exception_accumulator + map_exception_to_signal exceptions ∧
    (update s errors exceptions panic_events av t).2.1.panic_signal =
      compute_panic_signal s panic_events ∧
    (update s errors exceptions panic_events av t).2.1.derivative =
      0.3 * (update s errors exceptions panic_events av t).2.1.error_signal +
      0.5 * (update s errors exceptions panic_events av t).2.1.panic_signal +
      0.2 * (update s errors exceptions panic_events av t).2.1.exception_signal ∧
    (update s errors exceptions panic_events av t).2.1.current_stability =
      clip (s.stability +
        (update s errors exceptions panic_events av t).2.1.derivative *
          (t - s.last_update)) (-12) 12 ∧
    -12 ≤ (update s errors exceptions panic_events av t).2.1.current_stability ∧
    (update s errors exceptions panic_events av t).2.1.current_stability ≤ 12 := by
  simp only [update_snapshot]
  obtain ⟨he, hx, hp, hd, hs, -, -⟩ := uc_metrics s errors exceptions panic_events av t
  refine ⟨he, hx, hp, ?_, hs, ?_, ?_⟩
  · rw [hd, hlam, hmu, hnu]
  · rw [hs]
    exact lo_le_clip _ _ _ (by norm_num)
  · rw [hs]
    exact clip_le_hi _ _ _

theorem C2_update_tick_arithmetic_witness :
    (initState 0.3 0.5 0.2 2 1000 0).lambda_weight = 0.3 ∧
    (initState 0.3 0.5 0.2 2 1000 0).mu_weight = 0.5 ∧
    (initState 0.3 0.5 0.2 2 1000 0).nu_weight = 0.2 ∧
    ((update (initState 0.3 0.5 0.2 2 1000 0) [] [] [] none 1).2.1.error_signal =
      0.95 * (initState 0.3 0.5 0.2 2 1000 0).error_accumulator + map_error_to_signal [] ∧
    (update (initState 0.3 0.5 0.2 2 1000 0) [] [] [] none 1).2.1.exception_signal =
      0.9 * (initState 0.3 0.5 0.2 2 1000 0).exception_accumulator +
        map_exception_to_signal [] ∧
    (update (initState 0.3 0.5 0.2 2 1000 0) [] [] [] none 1).2.1.panic_signal =
      compute_panic_signal (initState 0.3 0.5 0.2 2 1000 0) [] ∧
    (update (initState 0.3 0.5 0.2 2 1000 0) [] [] [] none 1).2.1.derivative =
      0.3 * (update (initState 0.3 0.5 0.2 2 1000 0) [] [] [] none 1).2.1.error_signal +
      0.5 * (update (initState 0.3 0.5 0.2 2 1000 0) [] [] [] none 1).2.1.panic_signal +
      0.2 * (update (initState 0.3 0.5 0.2 2 1000 0) [] [] [] none 1).2.1.exception_signal ∧
    (update (initState 0.3 0.5 0.2 2 1000 0) [] [] [] none 1).2.1.current_stability =
      clip ((initState 0.3 0.5 0.2 2 1000 0).stability +
        (update (initState 0.3 0.5 0.2 2 1000 0) [] [] [] none 1).2.1.derivative *
          (1 - (initState 0.3 0.5 0.2 2 1000 0).last_update)) (-12) 12 ∧
    -12 ≤ (update (initState 0.3 0.5 0.2 2 1000 0) [] [] [] none 1).2.1.current_stability ∧
    (update (initState 0.3 0.5 0.2 2 1000 0) [] [] [] none 1).2.1.current_stability ≤ 12) :=
  ⟨rfl, rfl, rfl,
   C2_update_tick_arithmetic (initState 0.3 0.5 0.2 2 1000 0) [] [] [] none 1 rfl rfl rfl⟩

/-! C10: the `stability > 12` disjunct is dead -/

/-- C10: the recorded stability is clamped to at most 12 before the safety
check, so the `stability > 12` disjunct of the kill-switch condition never
holds: on every tick the condition is equivalent to
`zone = PANIC ∨ stability < -1`, and the returned state is reset exactly
under that equivalent condition. -/
theorem C10_dead_disjunct (s : EngineState) (errors : List ℝ)
    (exceptions : List ExceptionRecord) (panic_events : List PanicEvent)
    (av : Option (List ℝ)) (t : ℝ) :
    ¬ ((update s errors exceptions panic_events av t).2.1.current_stability > 12) ∧
    (killSwitchCond (update_core s errors exceptions panic_events av t).1.stability
        (update_core s errors exceptions panic_events av t).2 ↔
      ((update s errors exceptions panic_events av t).2.1.zone = .PANIC ∨
       (update s errors exceptions panic_events av t).2.1.current_stability < -1)) ∧
    (update s errors exceptions panic_events av t).1 =
      (if (update s errors exceptions panic_events av t).2.1.zone = .PANIC ∨
          (update s errors exceptions panic_events av t).2.1.current_stability < -1 then
        reset (update_core s errors exceptions panic_events av t).1 t
      else (update_core s errors exceptions panic_events av t).1) := by
  simp only [update_snapshot]
  obtain ⟨-, -, -, -, hs, -, -⟩ := uc_metrics s errors exceptions panic_events av t
  obtain ⟨hs1, -⟩ := uc_state s errors exceptions panic_events av t
  have hle : (update_core s errors exceptions panic_events av t).2.current_stability ≤ 12 := by
    rw [hs]; exact clip_le_hi _ _ _
  have hiff : killSwitchCond (update_core s errors exceptions panic_events av t).1.stability
      (update_core s errors exceptions panic_events av t).2 ↔
      ((update_core s errors exceptions panic_events av t).2.zone = .PANIC ∨
       (update_core s errors exceptions panic_events av t).2.current_stability < -1) := by
    unfold killSwitchCond
    rw [hs1]
    constructor
    · rintro (h | h | h)
      · exact Or.inl h
      · exact absurd h (not_lt.mpr hle)
      · exact Or.inr h
    · rintro (h | h)
      · exact Or.inl h
      · exact Or.inr (Or.inr h)
  refine ⟨not_lt.mpr hle, hiff, ?_⟩
  rw [update_fst, if_congr hiff rfl rfl]

theorem C10_dead_disjunct_witness :
    ¬ ((update (initState 0.3 0.5 0.2 2 1000 0) [] [] [] none 1).2.1.current_stability > 12) ∧
    (killSwitchCond (update_core (initState 0.3 0.5 0.2 2 1000 0) [] [] [] none 1).1.stability
        (update_core (initState 0.3 0.5 0.2 2 1000 0) [] [] [] none 1).2 ↔
      ((update (initState 0.3 0.5 0.2 2 1000 0) [] [] [] none 1).2.1.zone = .PANIC ∨
       (update (initState 0.3 0.5 0.2 2 1000 0) [] [] [] none 1).2.1.current_stability < -1)) :=
  ⟨(C10_dead_disjunct (initState 0.3 0.5 0.2 2 1000 0) [] [] [] none 1).1,
   (C10_dead_disjunct (initState 0.3 0.5 0.2 2 1000 0) [] [] [] none 1).2.1⟩

/-! C1: the kill-switch fully resets the engine -/

/-- C1: whenever a tick ends with the snapshot zone PANIC, or its
stability above 12 or below -1, the returned engine state is the one a
fresh `reset` produces: all scalars zero, all dwell times zero, zero total
time, empty history. -/
theorem C1_kill_switch_full_reset (s : EngineState) (errors : List ℝ)
    (exceptions : List ExceptionRecord) (panic_events : List PanicEvent)
    (av : Option (List ℝ)) (t : ℝ)
    (h : (update s errors exceptions panic_events av t).2.1.zone = .PANIC ∨
         (update s errors exceptions panic_events av t).2.1.current_stability > 12 ∨
         (update s errors exceptions panic_events av t).2.1.current_stability < -1) :
    (update s errors exceptions panic_events av t).1.stability = 0 ∧
    (update s errors exceptions panic_events av t).1.error_accumulator = 0 ∧
    (update s errors exceptions panic_events av t).1.exception_accumulator = 0 ∧
    (update s errors exceptions panic_events av t).1.panic_level = 0 ∧
    (∀ z, (update s errors exceptions panic_events av t).1.zone_time_tracker z = 0) ∧
    (update s errors exceptions panic_events av t).1.total_time = 0 ∧
    (update s errors exceptions panic_events av t).1.history = [] ∧
    (update s errors exceptions panic_events av t).1 =
      reset (update_core s errors exceptions panic_events av t).1 t := by
  simp only [update_snapshot] at h
  have hcond : killSwitchCond (update_core s errors exceptions panic_events av t).1.stability
      (update_core s errors exceptions panic_events av t).2 := h
  rw [update_fst, if_pos hcond]
  exact ⟨rfl, rfl, rfl, rfl, fun z => rfl, rfl, rfl, rfl⟩

/-- A fresh engine whose stability has been forced to -2: the next tick
trips the `stability < -1` disjunct of the kill-switch. -/
def c1state : EngineState :=
  { initState 0.3 0.5 0.2 2 1000 0 with stability := -2 }

theorem c1state_tick_stability :
    (update_core c1state [] [] [] none 0).2.current_stability = -2 := by
  rw [(uc_metrics c1state [] [] [] none 0).2.2.2.2.1]
  have h0 : (0 : ℝ) - c1state.last_update = 0 := by
    norm_num [c1state, initState]
  rw [h0, mul_zero, add_zero]
  have hs : c1state.stability = -2 := rfl
  rw [hs, clip_eq_self _ _ _ (by norm_num) (by norm_num)]

theorem C1_kill_switch_full_reset_witness :
    ((update c1state [] [] [] none 0).2.1.zone = .PANIC ∨
     (update c1state [] [] [] none 0).2.1.current_stability > 12 ∨
     (update c1state [] [] [] none 0).2.1.current_stability < -1) ∧
    (update c1state [] [] [] none 0).1.stability = 0 ∧
    (update c1state [] [] [] none 0).1.error_accumulator = 0 ∧
    (update c1state [] [] [] none 0).1.exception_accumulator = 0 ∧
    (update c1state [] [] [] none 0).1.panic_level = 0 ∧
    (∀ z, (update c1state [] [] [] none 0).1.zone_time_tracker z = 0) ∧
    (update c1state [] [] [] none 0).1.total_time = 0 ∧
    (update c1state [] [] [] none 0).1.history = [] ∧
    (update c1state [] [] [] none 0).1 =
      reset (update_core c1state [] [] [] none 0).1 0 :=
  have h : (update c1state [] [] [] none 0).2.1.zone = .PANIC ∨
      (update c1state [] [] [] none 0).2.1.current_stability > 12 ∨
      (update c1state [] [] [] none 0).2.1.current_stability < -1 :=
    Or.inr (Or.inr (by rw [update_snapshot, c1state_tick_stability]; norm_num))
  ⟨h, C1_kill_switch_full_reset c1state [] [] [] none 0 h⟩

/-! C7: dwell times sum to total time -/

theorem dwellSum_add_one_zone (tr : StabilityZone → ℝ) (z0 : StabilityZone) (dt : ℝ) :
    dwellSum (fun z => if z = z0 then tr z + dt else tr z) = dwellSum tr + dt := by
  cases z0 <;> simp [dwellSum] <;> ring

/-- C7: in every reachable engine state the dwell times over the eleven
zones sum to `total_time`: each tick adds `dt` to exactly one zone and to
the total, and every reset zeroes both. -/
theorem C7_dwell_times_sum_to_total (s : EngineState) (h : Reachable s) :
    dwellSum s.zone_time_tracker = s.total_time := by
  induction h with
  | init lam mu nu tau hsize now => simp [initState, dwellSum]
  | reset_step s now h ih => simp [reset, dwellSum]
  | step s errors exceptions panic_events av t h ih =>
    rw [update_fst]
    split_ifs with hc
    · simp [reset, dwellSum]
    · obtain ⟨-, -, -, -, htr, htot, -, -, -⟩ := uc_state s errors exceptions panic_events av t
      rw [htr, htot, dwellSum_add_one_zone, ih]

theorem C7_dwell_times_sum_to_total_witness :
    dwellSum (initState 0.3 0.5 0.2 2 1000 0).zone_time_tracker =
      (initState 0.3 0.5 0.2 2 1000 0).total_time :=
  C7_dwell_times_sum_to_total _ (Reachable.init 0.3 0.5 0.2 2 1000 0)

/-! C8: total update, isolated callbacks -/

theorem trigger_eq_filterMap (cbs : List ZoneCallback) (m : StabilityMetrics) :
    trigger_zone_callbacks cbs m =
      cbs.filterMap (fun cb => (cb m).map (fun e => "Zone callback error: " ++ e)) := by
  induction cbs with
  | nil => rfl
  | cons cb rest ih =>
    unfold trigger_zone_callbacks
    rw [List.filterMap_cons]
    cases cb m <;> simp [ih]

/-- C8: `update` always returns the snapshot the tick body computes,
whatever the registered callbacks do: every callback for the snapshot
zone is applied in order, each failure is caught and logged without
stopping the remaining callbacks, and neither the snapshot nor the engine
state depends on the callbacks or their outcomes. -/
theorem C8_update_total_callbacks_isolated (s : EngineState) (errors : List ℝ)
    (exceptions : List ExceptionRecord) (panic_events : List PanicEvent)
    (av : Option (List ℝ)) (t : ℝ) :
    (update s errors exceptions panic_events av t).2.1 =
      (update_core s errors exceptions panic_events av t).2 ∧
    (update s errors exceptions panic_events av t).2.2 =
      (s.zone_callbacks (update s errors exceptions panic_events av t).2.1.zone).filterMap
        (fun cb => (cb (update s errors exceptions panic_events av t).2.1).map
          (fun e => "Zone callback error: " ++ e)) ∧
    (∀ cbs, (update { s with zone_callbacks := cbs } errors exceptions panic_events av t).2.1 =
      (update s errors exceptions panic_events av t).2.1) ∧
    (∀ cbs, (update { s with zone_callbacks := cbs } errors exceptions panic_events av t).1 =
      { (update s errors exceptions panic_events av t).1 with zone_callbacks := cbs }) := by
  refine ⟨rfl, ?_, fun cbs => rfl, fun cbs => ?_⟩
  · rw [update_logs, update_snapshot, trigger_eq_filterMap]
  · show (if killSwitchCond (update_core s errors exceptions panic_events av t).1.stability
            (update_core s errors exceptions panic_events av t).2 then
          reset (update_core { s with zone_callbacks := cbs }
            errors exceptions panic_events av t).1 t
        else (update_core { s with zone_callbacks := cbs }
            errors exceptions panic_events av t).1) =
      { (if killSwitchCond (update_core s errors exceptions panic_events av t).1.stability
            (update_core s errors exceptions panic_events av t).2 then
          reset (update_core s errors exceptions panic_events av t).1 t
        else (update_core s errors exceptions panic_events av t).1) with
        zone_callbacks := cbs }
    split_ifs with h <;> rfl

/-- A registry whose callbacks fail, succeed, and fail again: both
failures are logged and the middle callback still runs. -/
def c8cbs : List ZoneCallback :=
  [fun _ => some "boom", fun _ => none, fun _ => some "bif"]

def c8state : EngineState :=
  { initState 0.3 0.5 0.2 2 1000 0 with zone_callbacks := fun _ => c8cbs }

theorem C8_update_total_callbacks_isolated_witness :
    (update c8state [] [] [] none 1).2.1 = (update_core c8state [] [] [] none 1).2 ∧
    (update c8state [] [] [] none 1).2.2 =
      ["Zone callback error: " ++ "boom", "Zone callback error: " ++ "bif"] :=
  have h := C8_update_total_callbacks_isolated c8state [] [] [] none 1
  ⟨h.1, h.2.1.trans (by rfl)⟩

/-! C5: what empty-batch ticks actually decay -/

/-- A reachable-shape state with positive stability and a positive error
accumulator: an empty-batch tick moves its stability away from 0. -/
def c5state : EngineState :=
  { initState 0.3 0.5 0.2 2 1000 0 with stability := 1, error_accumulator := 1 }

theorem c5_tick_deriv : (update_core c5state [] [] [] none 1).2.derivative = 0.285 := by
  obtain ⟨he, hx, hp, hd, -, -, -⟩ := uc_metrics c5state [] [] [] none 1
  rw [hd, he, hx, hp, map_error_to_signal_nil, map_exception_to_signal_nil,
    compute_panic_signal_nil]
  norm_num [c5state, initState]

theorem c5_tick_stab : (update_core c5state [] [] [] none 1).2.current_stability = 1.285 := by
  rw [(uc_metrics c5state [] [] [] none 1).2.2.2.2.1, c5_tick_deriv]
  have h : c5state.stability + 0.285 * (1 - c5state.last_update) = 1.285 := by
    norm_num [c5state, initState]
  rw [h, clip_eq_self _ _ _ (by norm_num) (by norm_num)]

theorem c5_tick_zone :
    (update_core c5state [] [] [] none 1).2.zone = StabilityZone.WARNING_MED := by
  rw [(uc_metrics c5state [] [] [] none 1).2.2.2.2.2.1, c5_tick_stab]
  exact get_zone_eq_of_zoneSpec _ _ (by norm_num [zoneSpec])

theorem c5_no_kill : ¬ killSwitchCond (update_core c5state [] [] [] none 1).1.stability
    (update_core c5state [] [] [] none 1).2 := by
  unfold killSwitchCond
  rw [(uc_state c5state [] [] [] none 1).1, c5_tick_stab, c5_tick_zone]
  rintro (h | h | h)
  · exact absurd h (by decide)
  · norm_num at h
  · norm_num at h

/-- C5 as stated is false: from stability 1 with error accumulator 1, an
empty-batch tick raises stability to 1.285, strictly away from 0. -/
theorem C5_counterexample :
    c5state.stability = 1 ∧
    (update c5state [] [] [] none 1).1.stability = 1.285 ∧
    |(update c5state [] [] [] none 1).1.stability| > |c5state.stability| := by
  have hs : (update c5state [] [] [] none 1).1.stability = 1.285 := by
    rw [update_fst, if_neg c5_no_kill, (uc_state c5state [] [] [] none 1).1, c5_tick_stab]
  refine ⟨rfl, hs, ?_⟩
  have hc : c5state.stability = 1 := rfl
  rw [hs, hc, abs_of_pos (by norm_num), abs_of_pos (by norm_num)]
  norm_num

/-- C5 amended: an empty-batch tick that does not trip the kill-switch
multiplies the error accumulator by exactly 0.95, the exception
accumulator by exactly 0.9, and the panic level by `exp(-1/τ)` — geometric
decay toward 0 that never zeroes a nonzero accumulator in one step. The
stability value itself is not driven toward 0 (see the counterexample). -/
theorem C5_empty_batch_accumulator_decay (s : EngineState) (t : ℝ)
    (h : ¬ killSwitchCond (update_core s [] [] [] none t).1.stability
        (update_core s [] [] [] none t).2) :
    (update s [] [] [] none t).1.error_accumulator = 0.95 * s.error_accumulator ∧
    (update s [] [] [] none t).1.exception_accumulator = 0.9 * s.exception_accumulator ∧
    (update s [] [] [] none t).1.panic_level = s.panic_level * Real.exp (-1 / s.tau_panic) ∧
    (s.error_accumulator ≠ 0 → (update s [] [] [] none t).1.error_accumulator ≠ 0) ∧
    (s.exception_accumulator ≠ 0 → (update s [] [] [] none t).1.exception_accumulator ≠ 0) ∧
    (s.panic_level ≠ 0 → (update s [] [] [] none t).1.panic_level ≠ 0) := by
  obtain ⟨-, hea, hxa, hpa, -, -, -, -, -⟩ := uc_state s [] [] [] none t
  obtain ⟨he, hx, hp, -, -, -, -⟩ := uc_metrics s [] [] [] none t
  rw [update_fst, if_neg h]
  have hE : (update_core s [] [] [] none t).1.error_accumulator = 0.95 * s.error_accumulator := by
    rw [hea, he, map_error_to_signal_nil, add_zero]
  have hX : (update_core s [] [] [] none t).1.exception_accumulator =
      0.9 * s.exception_accumulator := by
    rw [hxa, hx, map_exception_to_signal_nil, add_zero]
  have hP : (update_core s [] [] [] none t).1.panic_level =
      s.panic_level * Real.exp (-1 / s.tau_panic) := by
    rw [hpa, hp, compute_panic_signal_nil]
  refine ⟨hE, hX, hP, ?_, ?_, ?_⟩
  · intro hne
    rw [hE]
    exact mul_ne_zero (by norm_num) hne
  · intro hne
    rw [hX]
    exact mul_ne_zero (by norm_num) hne
  · intro hne
    rw [hP]
    exact mul_ne_zero hne (Real.exp_ne_zero _)

theorem C5_empty_batch_accumulator_decay_witness :
    ¬ killSwitchCond (update_core c5state [] [] [] none 1).1.stability
        (update_core c5state [] [] [] none 1).2 ∧
    (update c5state [] [] [] none 1).1.error_accumulator = 0.95 * c5state.error_accumulator ∧
    (update c5state [] [] [] none 1).1.exception_accumulator =
      0.9 * c5state.exception_accumulator ∧
    (update c5state [] [] [] none 1).1.panic_level =
      c5state.panic_level * Real.exp (-1 / c5state.tau_panic) ∧
    c5state.error_accumulator ≠ 0 ∧
    (update c5state [] [] [] none 1).1.error_accumulator ≠ 0 :=
  have h := C5_empty_batch_accumulator_decay c5state 1 c5_no_kill
  have hne : c5state.error_accumulator ≠ 0 := by norm_num [c5state, initState]
  ⟨c5_no_kill, h.1, h.2.1, h.2.2.1, hne, h.2.2.2.1 hne⟩

/-! C6: zero vs negative dt -/

/-- Stability 2 with error accumulator 1: a tick with negative `dt`
changes the stability (the integration step is not a no-op). -/
def c6state : EngineState :=
  { initState 0.3 0.5 0.2 2 1000 0 with stability := 2, error_accumulator := 1 }

theorem c6_tick_deriv : (update_core c6state [] [] [] none (-1)).2.derivative = 0.285 := by
  obtain ⟨he, hx, hp, hd, -, -, -⟩ := uc_metrics c6state [] [] [] none (-1)
  rw [hd, he, hx, hp, map_error_to_signal_nil, map_exception_to_signal_nil,
    compute_panic_signal_nil]
  norm_num [c6state, initState]

theorem c6_tick_stab :
    (update_core c6state [] [] [] none (-1)).2.current_stability = 1.715 := by
  rw [(uc_metrics c6state [] [] [] none (-1)).2.2.2.2.1, c6_tick_deriv]
  have h : c6state.stability + 0.285 * (-1 - c6state.last_update) = 1.715 := by
    norm_num [c6state, initState]
  rw [h, clip_eq_self _ _ _ (by norm_num) (by norm_num)]

theorem c6_tick_zone :
    (update_core c6state [] [] [] none (-1)).2.zone = StabilityZone.WARNING_MED := by
  rw [(uc_metrics c6state [] [] [] none (-1)).2.2.2.2.2.1, c6_tick_stab]
  exact get_zone_eq_of_zoneSpec _ _ (by norm_num [zoneSpec])

theorem c6_no_kill : ¬ killSwitchCond (update_core c6state [] [] [] none (-1)).1.stability
    (update_core c6state [] [] [] none (-1)).2 := by
  unfold killSwitchCond
  rw [(uc_state c6state [] [] [] none (-1)).1, c6_tick_stab, c6_tick_zone]
  rintro (h | h | h)
  · exact absurd h (by decide)
  · norm_num at h
  · norm_num at h

/-- C6 as stated is false for negative `dt`: from stability 2 with error
accumulator 1, a tick with `dt = -1` moves the stability to 1.715. -/
theorem C6_counterexample :
    (-1 : ℝ) - c6state.last_update < 0 ∧
    c6state.stability = 2 ∧
    (update c6state [] [] [] none (-1)).1.stability = 1.715 ∧
    (update c6state [] [] [] none (-1)).1.stability ≠ c6state.stability := by
  have hs : (update c6state [] [] [] none (-1)).1.stability = 1.715 := by
    rw [update_fst, if_neg c6_no_kill, (uc_state c6state [] [] [] none (-1)).1, c6_tick_stab]
  refine ⟨by norm_num [c6state, initState], rfl, hs, ?_⟩
  rw [hs]
  have hc : c6state.stability = 2 := rfl
  rw [hc]
  norm_num

/-- C6 amended: an update with `dt = 0` on a state whose stability is in
`[-12,12]` and which does not trigger the kill-switch leaves the stability
unchanged while the derivative is still computed and recorded, the
accumulators are updated with the new signals, the zone is re-derived from
the (unchanged) stability, and a snapshot is appended to the history; with
a negative `dt` the stability is not left unchanged in general. -/
theorem C6_zero_dt_frame (s : EngineState) (errors : List ℝ)
    (exceptions : List ExceptionRecord) (panic_events : List PanicEvent)
    (av : Option (List ℝ))
    (hlo : -12 ≤ s.stability) (hhi : s.stability ≤ 12)
    (hzone : get_zone s.stability ≠ .PANIC) (hneg : ¬ s.stability < -1) :
    (update s errors exceptions panic_events av s.last_update).1.stability = s.stability ∧
    (update s errors exceptions panic_events av s.last_update).2.1.derivative =
      s.lambda_weight * (0.95 * s.error_accumulator + map_error_to_signal errors) +
      s.mu_weight * compute_panic_signal s panic_events +
      s.nu_weight * (0.9 * s.exception_accumulator + map_exception_to_signal exceptions) ∧
    (update s errors exceptions panic_events av s.last_update).1.error_accumulator =
      0.95 * s.error_accumulator + map_error_to_signal errors ∧
    (update s errors exceptions panic_events av s.last_update).1.exception_accumulator =
      0.9 * s.exception_accumulator + map_exception_to_signal exceptions ∧
    (update s errors exceptions panic_events av s.last_update).2.1.zone =
      get_zone s.stability ∧
    (update s errors exceptions panic_events av s.last_update).1.history =
      push_history s.history_size s.history
        (update_core s errors exceptions panic_events av s.last_update).2 ∧
    (update s errors exceptions panic_events av s.last_update).1.total_time = s.total_time := by
  obtain ⟨he, hx, hp, hd, hcs, hzn, -⟩ := uc_metrics s errors exceptions panic_events av s.last_update
  obtain ⟨hs1, hea, hxa, -, -, htot, hhist, -, -⟩ :=
    uc_state s errors exceptions panic_events av s.last_update
  have hstab : (update_core s errors exceptions panic_events av s.last_update).2.current_stability
      = s.stability := by
    rw [hcs, sub_self, mul_zero, add_zero, clip_eq_self _ _ _ hlo hhi]
  have hz : (update_core s errors exceptions panic_events av s.last_update).2.zone =
      get_zone s.stability := by
    rw [hzn, hstab]
  have hnk : ¬ killSwitchCond
      (update_core s errors exceptions panic_events av s.last_update).1.stability
      (update_core s errors exceptions panic_events av s.last_update).2 := by
    unfold killSwitchCond
    rw [hs1, hstab, hz]
    rintro (h | h | h)
    · exact hzone h
    · linarith
    · exact hneg h
  rw [update_fst, update_snapshot, if_neg hnk]
  refine ⟨?_, ?_, ?_, ?_, hz, hhist, ?_⟩
  · rw [hs1, hstab]
  · rw [hd, he, hx, hp]
  · rw [hea, he]
  · rw [hxa, hx]
  · rw [htot, sub_self, add_zero]

theorem C6_zero_dt_frame_witness :
    (-12 : ℝ) ≤ (initState 0.3 0.5 0.2 2 1000 0).stability ∧
    (initState 0.3 0.5 0.2 2 1000 0).stability ≤ 12 ∧
    get_zone (initState 0.3 0.5 0.2 2 1000 0).stability ≠ .PANIC ∧
    ¬ (initState 0.3 0.5 0.2 2 1000 0).stability < -1 ∧
    (update (initState 0.3 0.5 0.2 2 1000 0) [] [] [] none
      (initState 0.3 0.5 0.2 2 1000 0).last_update).1.stability =
      (initState 0.3 0.5 0.2 2 1000 0).stability ∧
    (update (initState 0.3 0.5 0.2 2 1000 0) [] [] [] none
      (initState 0.3 0.5 0.2 2 1000 0).last_update).1.history =
      push_history (initState 0.3 0.5 0.2 2 1000 0).history_size
        (initState 0.3 0.5 0.2 2 1000 0).history
        (update_core (initState 0.3 0.5 0.2 2 1000 0) [] [] [] none
          (initState 0.3 0.5 0.2 2 1000 0).last_update).2 :=
  have hzone : get_zone (initState 0.3 0.5 0.2 2 1000 0).stability ≠ .PANIC := by
    have h : get_zone (initState 0.3 0.5 0.2 2 1000 0).stability = .STABLE :=
      get_zone_eq_of_zoneSpec _ _ (by norm_num [zoneSpec, initState])
    rw [h]
    decide
  have h := C6_zero_dt_frame (initState 0.3 0.5 0.2 2 1000 0) [] [] [] none
    (by norm_num [initState]) (by norm_num [initState]) hzone (by norm_num [initState])
  ⟨by norm_num [initState], by norm_num [initState], hzone, by norm_num [initState],
   h.1, h.2.2.2.2.2.1⟩

/-! C9: the trace gate and its prediction field -/

/-- C9 amended: `get_trace` returns a record exactly when the history is
non-empty and the zone of the most recent snapshot is STABLE; the
prediction field equals `stability + last_derivative·1.0` only when the history
holds at least two snapshots — with a single snapshot it is the bare
current stability, with no derivative term. -/
theorem C9_trace_gate_and_prediction (s : EngineState) :
    (s.history.getLast? = none → get_trace s = none) ∧
    (∀ m, s.history.getLast? = some m → m.zone ≠ .STABLE → get_trace s = none) ∧
    (∀ m, s.history.getLast? = some m → m.zone = .STABLE →
      get_trace s = some
        { timestamp := m.timestamp
          stability := m.current_stability
          derivative := m.derivative
          error_health := m.error_signal
          exception_health := m.exception_signal
          panic_health := m.panic_signal
          prediction := if s.history.length < 2 then s.stability
            else s.stability + m.derivative * 1 }) := by
  refine ⟨?_, ?_, ?_⟩
  · intro h
    simp [get_trace, h]
  · intro m hm hz
    simp [get_trace, hm, hz]
  · intro m hm hz
    simp [get_trace, predict_future_stability, hm, hz]

/-- The panic event used to build the C9 counterexample state. -/
def c9event : PanicEvent := ⟨some 0⟩

/-- One tick of a fresh engine with a severity-0 panic event and `dt = 0`:
it leaves stability at 0 (zone STABLE) while recording derivative 1.5, and
its history holds exactly one snapshot. -/
noncomputable def c9state : EngineState :=
  (update (initState 0.3 0.5 0.2 2 1000 0) [] [] [c9event] none 0).1

theorem c9_tick_deriv :
    (update_core (initState 0.3 0.5 0.2 2 1000 0) [] [] [c9event] none 0).2.derivative = 1.5 := by
  obtain ⟨he, hx, hp, hd, -, -, -⟩ :=
    uc_metrics (initState 0.3 0.5 0.2 2 1000 0) [] [] [c9event] none 0
  rw [hd, he, hx, hp, map_error_to_signal_nil, map_exception_to_signal_nil,
    compute_panic_signal_cons]
  norm_num [maxSeverity, c9event, initState, Real.exp_zero]

theorem c9_tick_stab :
    (update_core (initState 0.3 0.5 0.2 2 1000 0) [] [] [c9event] none 0).2.current_stability
      = 0 := by
  rw [(uc_metrics (initState 0.3 0.5 0.2 2 1000 0) [] [] [c9event] none 0).2.2.2.2.1,
    c9_tick_deriv]
  have h : (initState 0.3 0.5 0.2 2 1000 0).stability +
      1.5 * (0 - (initState 0.3 0.5 0.2 2 1000 0).last_update) = 0 := by
    norm_num [initState]
  rw [h, clip_eq_self _ _ _ (by norm_num) (by norm_num)]

theorem c9_tick_zone :
    (update_core (initState 0.3 0.5 0.2 2 1000 0) [] [] [c9event] none 0).2.zone =
      StabilityZone.STABLE := by
  rw [(uc_metrics (initState 0.3 0.5 0.2 2 1000 0) [] [] [c9event] none 0).2.2.2.2.2.1,
    c9_tick_stab]
  exact get_zone_eq_of_zoneSpec _ _ (by norm_num [zoneSpec])

theorem c9_no_kill : ¬ killSwitchCond
    (update_core (initState 0.3 0.5 0.2 2 1000 0) [] [] [c9event] none 0).1.stability
    (update_core (initState 0.3 0.5 0.2 2 1000 0) [] [] [c9event] none 0).2 := by
  unfold killSwitchCond
  rw [(uc_state (initState 0.3 0.5 0.2 2 1000 0) [] [] [c9event] none 0).1,
    c9_tick_stab, c9_tick_zone]
  rintro (h | h | h)
  · exact absurd h (by decide)
  · norm_num at h
  · norm_num at h

theorem c9state_eq : c9state =
    (update_core (initState 0.3 0.5 0.2 2 1000 0) [] [] [c9event] none 0).1 := by
  unfold c9state
  rw [update_fst, if_neg c9_no_kill]

theorem c9state_hist : c9state.history =
    [(update_core (initState 0.3 0.5 0.2 2 1000 0) [] [] [c9event] none 0).2] := by
  rw [c9state_eq,
    (uc_state (initState 0.3 0.5 0.2 2 1000 0) [] [] [c9event] none 0).2.2.2.2.2.2.1]
  simp [push_history, initState]

theorem c9state_stab : c9state.stability = 0 := by
  rw [c9state_eq, (uc_state (initState 0.3 0.5 0.2 2 1000 0) [] [] [c9event] none 0).1,
    c9_tick_stab]

/-- C9 as stated is false: after one tick of a fresh engine the history is the
single snapshot above, whose zone is STABLE, so `get_trace` does return a
record — but the prediction in that record is 0 (the bare stability), not
`stability + last_derivative·1.0 = 0 + 1.5·1.0 = 1.5`. -/
theorem C9_counterexample :
    (get_trace c9state).map TraceRecord.prediction = some 0 ∧
    c9state.history.getLast?.map StabilityMetrics.zone = some .STABLE ∧
    c9state.history.getLast?.map StabilityMetrics.derivative = some 1.5 ∧
    c9state.stability = 0 ∧
    (0 : ℝ) ≠ 0 + 1.5 * 1 := by
  have hm : c9state.history.getLast? =
      some (update_core (initState 0.3 0.5 0.2 2 1000 0) [] [] [c9event] none 0).2 := by
    rw [c9state_hist]
    rfl
  have hlen : c9state.history.length = 1 := by
    rw [c9state_hist]
    rfl
  have htr : (get_trace c9state).map TraceRecord.prediction =
      some (predict_future_stability c9state 1) := by
    simp [get_trace, hm, c9_tick_zone]
  refine ⟨?_, ?_, ?_, c9state_stab, by norm_num⟩
  · rw [htr]
    simp [predict_future_stability, hm, hlen, c9state_stab]
  · rw [hm]
    simp [c9_tick_zone]
  · rw [hm]
    simp [c9_tick_deriv]

theorem C9_trace_gate_and_prediction_witness :
    c9state.history.getLast? =
      some (update_core (initState 0.3 0.5 0.2 2 1000 0) [] [] [c9event] none 0).2 ∧
    (update_core (initState 0.3 0.5 0.2 2 1000 0) [] [] [c9event] none 0).2.zone =
      StabilityZone.STABLE ∧
    get_trace c9state = some
      { timestamp :=
          (update_core (initState 0.3 0.5 0.2 2 1000 0) [] [] [c9event] none 0).2.timestamp
        stability :=
          (update_core (initState 0.3 0.5 0.2 2 1000 0) [] [] [c9event] none 0).2.current_stability
        derivative :=
          (update_core (initState 0.3 0.5 0.2 2 1000 0) [] [] [c9event] none 0).2.derivative
        error_health :=
          (update_core (initState 0.3 0.5 0.2 2 1000 0) [] [] [c9event] none 0).2.error_signal
        exception_health :=
          (update_core (initState 0.3 0.5 0.2 2 1000 0) [] [] [c9event] none 0).2.exception_signal
        panic_health :=
          (update_core (initState 0.3 0.5 0.2 2 1000 0) [] [] [c9event] none 0).2.panic_signal
        prediction := if c9state.history.length < 2 then c9state.stability
          else c9state.stability +
            (update_core (initState 0.3 0.5 0.2 2 1000 0) [] [] [c9event] none 0).2.derivative
              * 1 } :=
  have hm : c9state.history.getLast? =
      some (update_core (initState 0.3 0.5 0.2 2 1000 0) [] [] [c9event] none 0).2 := by
    rw [c9state_hist]
    rfl
  ⟨hm, c9_tick_zone, (C9_trace_gate_and_prediction c9state).2.2 _ hm c9_tick_zone⟩

end OBI
